import Mathlib

/-!
Verification of the enrollment service of the workshop portal
(`backend/models/Inscripcion.js`, `TallerModel`): a shallow embedding of the
two relations the service touches and of the operations `create`, `cancelar`,
`verificarPuedeInscribirse` and `verificarCupoDisponible`, with theorems about
the capacity and single-enrollment invariants, the error taxonomy and the
read-only eligibility check.
-/

namespace MakeupPro

/-- Lifecycle states of an enrollment row (the `estado` column of
`inscripciones`): `activa`, `cancelada`, `inactiva`. -/
inductive Estado where
  | activa
  | cancelada
  | inactiva
deriving DecidableEq, Repr

/-- A row of the `talleres` relation, restricted to the columns the enrollment
logic reads: `id`, `cupo_maximo`, `activo`. -/
structure Taller where
  id : Nat
  cupo_maximo : Int
  activo : Bool
deriving DecidableEq, Repr

/-- A row of the `inscripciones` relation, restricted to the columns the
enrollment logic reads and writes. -/
structure Inscripcion where
  id : Nat
  alumno_id : Nat
  taller_id : Nat
  estado : Estado
  comentarios : Option String
deriving DecidableEq, Repr

/-- Committed database state: the two relations the enrollment service
touches. -/
structure DBState where
  talleres : List Taller
  inscripciones : List Inscripcion
deriving DecidableEq, Repr

/-- Row lookup in `talleres` by primary key (`WHERE t.id = $1`). -/
def findTaller (s : DBState) (tid : Nat) : Option Taller :=
  s.talleres.find? (fun t => decide (t.id = tid))

/-- `COUNT(*) FROM inscripciones i WHERE i.taller_id = $1 AND i.estado =
activa`, the live count every derived seats column is computed from. -/
def activeCount (s : DBState) (tid : Nat) : Nat :=
  (s.inscripciones.filter
    (fun i => decide (i.taller_id = tid ∧ i.estado = Estado.activa))).length

/-- Count of rows `WHERE alumno_id = $1 AND estado = activa`. -/
def activeCountAlumno (s : DBState) (aid : Nat) : Nat :=
  (s.inscripciones.filter
    (fun i => decide (i.alumno_id = aid ∧ i.estado = Estado.activa))).length

/-- `SELECT id, taller_id FROM inscripciones WHERE alumno_id = $1 AND estado =
activa` returned at least one row. -/
def hasInscripcionActiva (s : DBState) (aid : Nat) : Bool :=
  s.inscripciones.any
    (fun i => decide (i.alumno_id = aid ∧ i.estado = Estado.activa))

/-- Modelled from the spec: the store-side SQL function
`verificar_cupo_disponible` (its DDL is not among the sources; only its call
sites are). Per the spec the eligibility read is "the capacity of the Workshop
minus its current `active` Enrollment count", and every caller interprets the
value `-1` as "the workshop does not exist or is inactive" (the JSDoc of
`TallerModel.verificarCupoDisponible` documents the same sentinel). -/
def verificar_cupo_disponible (s : DBState) (tid : Nat) : Int :=
  match findTaller s tid with
  | none => -1
  | some t => if t.activo then t.cupo_maximo - (activeCount s tid : Int) else -1

/-- The typed outcomes of `InscripcionModel.create`; the source throws
`Error` values carrying the Spanish messages
"El alumno ya esta inscrito en otro taller" (`alreadyEnrolled`),
"El taller no existe o esta inactivo" (`workshopNotFound`) and
"No hay cupos disponibles en este taller" (`workshopFull`); `storeFailure`
stands for a store-level error raised by a statement itself. -/
inductive EnrollError where
  | alreadyEnrolled
  | workshopNotFound
  | workshopFull
  | storeFailure
deriving DecidableEq, Repr

/-- The argument record of `InscripcionModel.create`
(`alumno_id`, `taller_id`, `comentarios`). -/
structure EnrollRequest where
  alumno_id : Nat
  taller_id : Nat
  comentarios : Option String
deriving DecidableEq, Repr

/-- The eligibility re-checks of `InscripcionModel.create`, in source order:
the anti-double-enrollment SELECT, then the seat-function SELECT interpreted
as `=== -1` (missing or inactive) and `<= 0` (no seats). -/
def createChecks (req : EnrollRequest) (s : DBState) : Option EnrollError :=
  if hasInscripcionActiva s req.alumno_id then some .alreadyEnrolled
  else
    let cupos := verificar_cupo_disponible s req.taller_id
    if cupos = -1 then some .workshopNotFound
    else if cupos ≤ 0 then some .workshopFull
    else none

/-- Fresh primary key for an inserted `inscripciones` row. -/
def nextInscripcionId (s : DBState) : Nat :=
  (s.inscripciones.map Inscripcion.id).foldr max 0 + 1

/-- The `INSERT INTO inscripciones (alumno_id, taller_id, comentarios) ...
RETURNING *` statement. Modelled from the spec: the table DDL is not among
the sources; the spec fixes a fresh Enrollment row to state `active`, so the
`estado` column defaults to `activa`. -/
def insertInscripcion (req : EnrollRequest) (s : DBState) :
    Inscripcion × DBState :=
  let row : Inscripcion :=
    { id := nextInscripcionId s
      alumno_id := req.alumno_id
      taller_id := req.taller_id
      estado := Estado.activa
      comentarios := req.comentarios }
  (row, { s with inscripciones := s.inscripciones ++ [row] })

/-- Body of the transaction in `InscripcionModel.create`; `storeFail` models
a store-level failure of the INSERT statement itself (connection loss,
timeout, unanticipated constraint violation). -/
def createBody (req : EnrollRequest) (storeFail : Bool) (s : DBState) :
    Except EnrollError (Inscripcion × DBState) :=
  match createChecks req s with
  | some e => .error e
  | none =>
      if storeFail then .error .storeFailure
      else .ok (insertInscripcion req s)

/-- Modelled from the spec: the `transaction` helper of
`database/config-db.js` (not among the sources). Per the spec a failed
transaction rolls back and "leaves no partial Enrollment row (transaction
rollback guarantees all-or-nothing)"; a successful one commits its
writes. -/
def transaction {α : Type}
    (body : DBState → Except EnrollError (α × DBState)) (s : DBState) :
    Except EnrollError α × DBState :=
  match body s with
  | .ok (a, sNew) => (.ok a, sNew)
  | .error e => (.error e, s)

/-- `InscripcionModel.create` under sequential semantics: the whole
transaction runs without interleaving. -/
def create (req : EnrollRequest) (storeFail : Bool) (s : DBState) :
    Except EnrollError Inscripcion × DBState :=
  transaction (createBody req storeFail) s

/-- Two concurrent `InscripcionModel.create` transactions in the
read-committed interleaving T1-checks, T2-checks, T1-insert-and-commit,
T2-insert-and-commit. Modelled from the spec: the store isolation semantics
is external; per the spec the capacity check and the insert "are issued as
two separate statements inside a transaction without a demonstrated row
lock", and under read committed each statement reads the latest committed
state, the INSERT of a transaction becoming visible to others only at commit —
so in this interleaving both eligibility phases read the initial state. -/
def createRaced (r1 r2 : EnrollRequest) (s : DBState) :
    Except EnrollError Inscripcion × Except EnrollError Inscripcion
      × DBState :=
  match createChecks r1 s, createChecks r2 s with
  | some e1, some e2 => (.error e1, .error e2, s)
  | some e1, none =>
      let (row2, s2) := insertInscripcion r2 s
      (.error e1, .ok row2, s2)
  | none, some e2 =>
      let (row1, s1) := insertInscripcion r1 s
      (.ok row1, .error e2, s1)
  | none, none =>
      let (row1, s1) := insertInscripcion r1 s
      let (row2, s2) := insertInscripcion r2 s1
      (.ok row1, .ok row2, s2)

/-- The `comentario` value computed by `InscripcionModel.cancelar`:
the JavaScript conditional `motivo ? ... : ...` treats `null` and the empty
string as falsy. -/
def comentarioCancelacion (motivo : Option String) : String :=
  match motivo with
  | some m => if m = "" then "Cancelada por el usuario" else "Cancelada: " ++ m
  | none => "Cancelada por el usuario"

/-- The per-row effect of the UPDATE in `InscripcionModel.cancelar`: set
`estado = cancelada` and append the cancellation comment to any existing
`comentarios` with the separator `" | "`. -/
def cancelRow (comentario : String) (i : Inscripcion) : Inscripcion :=
  let nuevoComentario : String :=
    match i.comentarios with
    | none => comentario
    | some c => c ++ " | " ++ comentario
  { i with estado := Estado.cancelada, comentarios := some nuevoComentario }

/-- `InscripcionModel.cancelar`: the UPDATE matches on `id` alone (its WHERE
clause has no `estado` filter); the call returns `rowCount > 0`. -/
def cancelar (idv : Nat) (motivo : Option String) (s : DBState) :
    Bool × DBState :=
  let comentario := comentarioCancelacion motivo
  let filas := s.inscripciones.map
    (fun i => if i.id = idv then cancelRow comentario i else i)
  ( s.inscripciones.any (fun i => decide (i.id = idv))
  , { s with inscripciones := filas } )

/-- The reason codes of `InscripcionModel.verificarPuedeInscribirse`,
corresponding to the Spanish `razon` strings of the source. -/
inductive Razon where
  | puedeInscribirse
  | yaInscrito
  | tallerNoExisteOInactivo
  | sinCupos
deriving DecidableEq, Repr

/-- The structured verdict returned by
`InscripcionModel.verificarPuedeInscribirse`. -/
structure Verdict where
  puede : Bool
  razon : Razon
  cupos_disponibles : Option Int
deriving DecidableEq, Repr

/-- `InscripcionModel.verificarPuedeInscribirse`, with the database state
threaded through explicitly so that read-onlyness is a statement rather than
a typing accident: both statements of the source are SELECTs, so each step
passes the state along unchanged. -/
def verificarPuedeInscribirse (aid tid : Nat) (s : DBState) :
    Verdict × DBState :=
  if hasInscripcionActiva s aid then
    ({ puede := false, razon := .yaInscrito, cupos_disponibles := none }, s)
  else
    let cupos := verificar_cupo_disponible s tid
    if cupos = -1 then
      ({ puede := false, razon := .tallerNoExisteOInactivo,
         cupos_disponibles := none }, s)
    else if cupos ≤ 0 then
      ({ puede := false, razon := .sinCupos, cupos_disponibles := some 0 }, s)
    else
      ({ puede := true, razon := .puedeInscribirse,
         cupos_disponibles := some cupos }, s)

/-- Repeated calls to `verificarPuedeInscribirse`, each one starting from the
state the previous call left behind. -/
def iterateVerificar (aid tid : Nat) : Nat → DBState → DBState
  | 0, s => s
  | n + 1, s => iterateVerificar aid tid n (verificarPuedeInscribirse aid tid s).2

/-- The projection of a `talleres` row returned by `TallerModel.findById`:
the stored columns together with the two derived columns, each computed by a
live COUNT subquery over `inscripciones`. -/
structure TallerView where
  id : Nat
  cupo_maximo : Int
  activo : Bool
  inscritos_actuales : Nat
  cupos_disponibles : Int
deriving DecidableEq, Repr

/-- The SELECT list of `TallerModel.findById` applied to one `talleres` row:
the stored columns plus the two derived COUNT columns. -/
def tallerView (s : DBState) (t : Taller) : TallerView :=
  { id := t.id
    cupo_maximo := t.cupo_maximo
    activo := t.activo
    inscritos_actuales := activeCount s t.id
    cupos_disponibles := t.cupo_maximo - (activeCount s t.id : Int) }

/-- `TallerModel.findById`: `inscritos_actuales` is
`COUNT(*) ... estado = activa` and `cupos_disponibles` is
`cupo_maximo - COUNT(*) ... estado = activa`, both recomputed from the
current rows on every call. -/
def tallerFindById (s : DBState) (tid : Nat) : Option TallerView :=
  (findTaller s tid).map (tallerView s)

/-- `TallerModel.verificarCupoDisponible`: the wrapper returns
`result.rows[0]?.cupos_disponibles || -1`; the JavaScript `||` falls through
to `-1` exactly when the seat value is falsy, and the only falsy integer the
seat function can produce is `0`. -/
def tallerVerificarCupoDisponible (s : DBState) (tid : Nat) : Int :=
  let c := verificar_cupo_disponible s tid
  if c = 0 then -1 else c

end MakeupPro

deriving instance DecidableEq for Except

namespace MakeupPro

/-- The single-workshop-per-student rule (spec invariant 1): no student
profile holds more than one `activa` enrollment row. -/
def atMostOneActivePerAlumno (s : DBState) : Prop :=
  ∀ i ∈ s.inscripciones, i.estado = Estado.activa →
    activeCountAlumno s i.alumno_id ≤ 1

instance (s : DBState) : Decidable (atMostOneActivePerAlumno s) := by
  unfold atMostOneActivePerAlumno; infer_instance

/-- A capacity-1 workshop with no enrollments: the initial state of the
last-seat race. -/
def estadoCarrera : DBState := ⟨[⟨1, 1, true⟩], []⟩

/-- First racing enroll request: student 10 into workshop 1. -/
def solicitudCarrera1 : EnrollRequest := ⟨10, 1, none⟩

/-- Second racing enroll request: student 11 into workshop 1. -/
def solicitudCarrera2 : EnrollRequest := ⟨11, 1, none⟩

/-- An over-enrolled state: workshop 1 exists, is active, has capacity 1 and
two `activa` enrollments, so its remaining capacity is exactly `-1`. Such a
state is reachable sequentially: enroll two students into a capacity-2
workshop, then lower `cupo_maximo` to 1 through `TallerModel.update`, which
accepts any new capacity. -/
def estadoSobreinscrito : DBState :=
  ⟨[⟨1, 1, true⟩], [⟨1, 10, 1, .activa, none⟩, ⟨2, 11, 1, .activa, none⟩]⟩

/-- A state whose only enrollment row (id 1) is already `cancelada`. -/
def estadoCancelado : DBState :=
  ⟨[⟨1, 1, true⟩], [⟨1, 10, 1, .cancelada, some "Cancelada: previa"⟩]⟩

/-- A state in which workshop 1 is active with capacity 1 and exactly one
`activa` enrollment: remaining capacity is exactly 0. -/
def estadoLleno : DBState := ⟨[⟨1, 1, true⟩], [⟨1, 10, 1, .activa, none⟩]⟩

/-- A state with one empty active workshop and one student (10) already
holding an `activa` enrollment in workshop 1. -/
def estadoInscrito : DBState := ⟨[⟨1, 5, true⟩, ⟨2, 5, true⟩], [⟨1, 10, 1, .activa, none⟩]⟩

theorem createChecks_of_already (req : EnrollRequest) (s : DBState)
    (h : hasInscripcionActiva s req.alumno_id = true) :
    createChecks req s = some .alreadyEnrolled := by
  simp [createChecks, h]

theorem createChecks_of_notFound (req : EnrollRequest) (s : DBState)
    (h : hasInscripcionActiva s req.alumno_id = false)
    (hc : verificar_cupo_disponible s req.taller_id = -1) :
    createChecks req s = some .workshopNotFound := by
  simp [createChecks, h, hc]

theorem createChecks_of_full (req : EnrollRequest) (s : DBState)
    (h : hasInscripcionActiva s req.alumno_id = false)
    (hne : verificar_cupo_disponible s req.taller_id ≠ -1)
    (hle : verificar_cupo_disponible s req.taller_id ≤ 0) :
    createChecks req s = some .workshopFull := by
  simp [createChecks, h, hne, hle]

theorem createChecks_of_seats (req : EnrollRequest) (s : DBState)
    (h : hasInscripcionActiva s req.alumno_id = false)
    (hpos : 0 < verificar_cupo_disponible s req.taller_id) :
    createChecks req s = none := by
  have h1 : verificar_cupo_disponible s req.taller_id ≠ -1 := by omega
  have h2 : ¬ verificar_cupo_disponible s req.taller_id ≤ 0 := by omega
  simp [createChecks, h, h1, h2]

theorem createChecks_none_no_activa (req : EnrollRequest) (s : DBState)
    (h : createChecks req s = none) :
    hasInscripcionActiva s req.alumno_id = false := by
  by_contra hne
  have ht : hasInscripcionActiva s req.alumno_id = true := by
    simpa using hne
  simp [createChecks, ht] at h

theorem create_of_checks_error (req : EnrollRequest) (sf : Bool) (s : DBState)
    (e : EnrollError) (h : createChecks req s = some e) :
    create req sf s = (.error e, s) := by
  simp [create, transaction, createBody, h]

theorem create_of_checks_none (req : EnrollRequest) (s : DBState)
    (h : createChecks req s = none) :
    create req false s =
      (.ok (insertInscripcion req s).1, (insertInscripcion req s).2) := by
  simp [create, transaction, createBody, h]

theorem activeCountAlumno_of_no_activa (s : DBState) (aid : Nat)
    (h : hasInscripcionActiva s aid = false) :
    activeCountAlumno s aid = 0 := by
  rw [activeCountAlumno, List.length_eq_zero, List.filter_eq_nil_iff]
  intro i hi
  have := (List.any_eq_false.mp h) i hi
  simpa using this

theorem verificarPuedeInscribirse_snd (aid tid : Nat) (s : DBState) :
    (verificarPuedeInscribirse aid tid s).2 = s := by
  by_cases h1 : hasInscripcionActiva s aid <;>
    by_cases h2 : verificar_cupo_disponible s tid = -1 <;>
      by_cases h3 : verificar_cupo_disponible s tid ≤ 0 <;>
        simp [verificarPuedeInscribirse, h1, h2, h3]

/-- C7: `verificarPuedeInscribirse` (the eligibility check) is read-only:
for every student id, workshop id and state, a single call returns the state
it was given, and any number of chained calls leaves the stored state
identical to the initial one. -/
theorem verificarPuedeInscribirse_read_only (aid tid n : Nat) (s : DBState) :
    (verificarPuedeInscribirse aid tid s).2 = s
    ∧ iterateVerificar aid tid n s = s := by
  refine ⟨verificarPuedeInscribirse_snd aid tid s, ?_⟩
  induction n with
  | zero => rfl
  | succ n ih =>
      rw [iterateVerificar, verificarPuedeInscribirse_snd]
      exact ih

/-- C6: the `cupos_disponibles` value reported by `TallerModel.findById`
always equals the stored `cupo_maximo` minus the live count of `activa`
enrollment rows of that workshop, and `inscritos_actuales` equals that live
count; this holds at every state, in particular after each enroll or cancel
operation, because both columns are recomputed from the current rows on
every call. -/
theorem tallerFindById_derives_seats (s : DBState) (tid : Nat)
    (v : TallerView) (h : tallerFindById s tid = some v) :
    v.cupos_disponibles = v.cupo_maximo - (activeCount s tid : Int)
    ∧ v.inscritos_actuales = activeCount s tid := by
  unfold tallerFindById at h
  cases hf : findTaller s tid with
  | none => rw [hf] at h; simp at h
  | some t =>
      rw [hf] at h
      have hid : t.id = tid := by
        have := List.find?_some hf
        simpa using this
      have hv : some (tallerView s t) = some v := h
      rw [Option.some_inj] at hv
      rw [← hv, ← hid]
      exact ⟨rfl, rfl⟩

theorem tallerFindById_derives_seats_witness :
    (⟨1, 1, true, 1, 0⟩ : TallerView).cupos_disponibles
      = (⟨1, 1, true, 1, 0⟩ : TallerView).cupo_maximo
        - (activeCount estadoLleno 1 : Int)
    ∧ (⟨1, 1, true, 1, 0⟩ : TallerView).inscritos_actuales
      = activeCount estadoLleno 1 :=
  tallerFindById_derives_seats estadoLleno 1 ⟨1, 1, true, 1, 0⟩ (by decide)

/-- C10: `TallerModel.verificarCupoDisponible` returns `-1` for an existing,
active workshop whose remaining capacity is exactly 0 (the JavaScript `||`
treats the integer 0 as falsy and substitutes the default), which is the same
sentinel it returns for a nonexistent workshop, so a caller cannot
distinguish a full workshop from a missing one. -/
theorem tallerVerificarCupoDisponible_sentinel (s : DBState) (tid : Nat) :
    (∀ t, findTaller s tid = some t → t.activo = true →
      verificar_cupo_disponible s tid = 0 →
      tallerVerificarCupoDisponible s tid = -1)
    ∧ (findTaller s tid = none → tallerVerificarCupoDisponible s tid = -1) := by
  constructor
  · intro t _ _ h0
    simp [tallerVerificarCupoDisponible, h0]
  · intro hnone
    simp [tallerVerificarCupoDisponible, verificar_cupo_disponible, hnone]

theorem tallerVerificarCupoDisponible_sentinel_witness :
    tallerVerificarCupoDisponible estadoLleno 1 = -1 :=
  (tallerVerificarCupoDisponible_sentinel estadoLleno 1).1
    ⟨1, 1, true⟩ (by decide) (by decide) (by decide)

/-- C9: a successful `cancelar` with a nonempty reason leaves the matched row
in state `cancelada` with its comment equal to the previous comment followed
by the separator and the cancellation text `"Cancelada: " ++ m` (the prior
text is preserved as a prefix, the reason appended as a suffix); when the row
had no prior comment, the comment becomes the cancellation text alone. -/
theorem cancelar_appends_comment (s : DBState) (idv : Nat) (m : String)
    (i : Inscripcion) (hmem : i ∈ s.inscripciones) (hid : i.id = idv)
    (hm : m ≠ "") :
    ∃ j ∈ (cancelar idv (some m) s).2.inscripciones,
      j.estado = Estado.cancelada
      ∧ j.comentarios = some (match i.comentarios with
          | none => "Cancelada: " ++ m
          | some c => c ++ " | " ++ ("Cancelada: " ++ m)) := by
  have hcom : comentarioCancelacion (some m) = "Cancelada: " ++ m := by
    simp [comentarioCancelacion, hm]
  refine ⟨cancelRow (comentarioCancelacion (some m)) i, ?_, rfl, ?_⟩
  · have hmap := List.mem_map_of_mem
      (fun j => if j.id = idv then cancelRow (comentarioCancelacion (some m)) j else j)
      hmem
    simpa [cancelar, hid] using hmap
  · rw [hcom]
    cases hc : i.comentarios <;> simp [cancelRow, hc]

theorem cancelar_appends_comment_witness :
    ∃ j ∈ (cancelar 1 (some "otra") estadoCancelado).2.inscripciones,
      j.estado = Estado.cancelada
      ∧ j.comentarios
          = some ("Cancelada: previa" ++ " | " ++ ("Cancelada: " ++ "otra")) :=
  cancelar_appends_comment estadoCancelado 1 "otra"
    ⟨1, 10, 1, .cancelada, some "Cancelada: previa"⟩
    (by decide) rfl (by decide)

/-- C5 counterexample: in `estadoCancelado` the only enrollment row (id 1) is
already `cancelada`, yet `cancelar 1` reports success (`rowCount > 0`), so a
cancel call on an enrollment that is not currently `activa` does not fail —
double-cancel is silently accepted, contradicting the claim. -/
theorem cancelar_cancelled_reports_success :
    (∀ i ∈ estadoCancelado.inscripciones, i.estado ≠ Estado.activa)
    ∧ (cancelar 1 (some "otra vez") estadoCancelado).1 = true := by
  decide

/-- C5 amended: `cancelar` fails (returns `false`) exactly when no
`inscripciones` row with the given id exists; an existing row is matched and
reported as success regardless of its current state, including a row already
`cancelada` (the UPDATE has no `estado` filter); a failed call leaves the
state unchanged. -/
theorem cancelar_success_iff (idv : Nat) (m : Option String) (s : DBState) :
    ((cancelar idv m s).1 = true ↔ ∃ i ∈ s.inscripciones, i.id = idv)
    ∧ ((cancelar idv m s).1 = false → (cancelar idv m s).2 = s) := by
  constructor
  · simp [cancelar, List.any_eq_true]
  · intro h
    have hall : ∀ i ∈ s.inscripciones, ¬ i.id = idv := by
      simpa [cancelar] using h
    have hmap : s.inscripciones.map
        (fun i => if i.id = idv
          then cancelRow (comentarioCancelacion m) i else i)
        = s.inscripciones := by
      have hcongr : s.inscripciones.map
          (fun i => if i.id = idv
            then cancelRow (comentarioCancelacion m) i else i)
          = s.inscripciones.map id :=
        List.map_congr_left (fun i hi => by rw [if_neg (hall i hi)]; rfl)
      rw [hcongr, List.map_id]
    simp [cancelar, hmap]

theorem cancelar_success_iff_witness :
    (cancelar 7 none estadoCancelado).1 = false
    ∧ (cancelar 7 none estadoCancelado).2 = estadoCancelado :=
  ⟨by decide, (cancelar_success_iff 7 none estadoCancelado).2 (by decide)⟩

/-- C8 counterexample: in `estadoSobreinscrito` workshop 1 exists and is
active (the lookup does not fail) and its remaining seats are below zero, so
per the claim the verdict should be `full`; the code instead reports
`workshop-not-found-or-inactive`, because the seat function yields the
sentinel value `-1` for a remaining capacity of exactly `-1` as well. -/
theorem verificarPuedeInscribirse_conflates_full :
    (findTaller estadoSobreinscrito 1).isSome = true
    ∧ (∀ t ∈ estadoSobreinscrito.talleres, t.activo = true)
    ∧ hasInscripcionActiva estadoSobreinscrito 12 = false
    ∧ verificar_cupo_disponible estadoSobreinscrito 1 ≤ 0
    ∧ (verificarPuedeInscribirse 12 1 estadoSobreinscrito).1.razon
        = Razon.tallerNoExisteOInactivo
    ∧ Razon.tallerNoExisteOInactivo ≠ Razon.sinCupos := by
  decide

/-- C8 amended: `verificarPuedeInscribirse` returns `already-enrolled`
whenever the student has an `activa` enrollment (this takes priority over the
workshop checks); otherwise `workshop-not-found-or-inactive` when the seat
function returns the sentinel `-1` (the workshop is missing or inactive, or
its remaining seats are exactly `-1`); otherwise `full` (with reported seats
0) when remaining seats are at most 0; otherwise eligible with the
remaining-seats count. -/
theorem verificarPuedeInscribirse_cases (aid tid : Nat) (s : DBState) :
    (hasInscripcionActiva s aid = true →
      verificarPuedeInscribirse aid tid s =
        ({ puede := false, razon := .yaInscrito,
           cupos_disponibles := none }, s))
    ∧ (hasInscripcionActiva s aid = false →
        verificar_cupo_disponible s tid = -1 →
        verificarPuedeInscribirse aid tid s =
          ({ puede := false, razon := .tallerNoExisteOInactivo,
             cupos_disponibles := none }, s))
    ∧ (hasInscripcionActiva s aid = false →
        verificar_cupo_disponible s tid ≠ -1 →
        verificar_cupo_disponible s tid ≤ 0 →
        verificarPuedeInscribirse aid tid s =
          ({ puede := false, razon := .sinCupos,
             cupos_disponibles := some 0 }, s))
    ∧ (hasInscripcionActiva s aid = false →
        0 < verificar_cupo_disponible s tid →
        verificarPuedeInscribirse aid tid s =
          ({ puede := true, razon := .puedeInscribirse,
             cupos_disponibles := some (verificar_cupo_disponible s tid) },
           s)) := by
  refine ⟨?_, ?_, ?_, ?_⟩
  · intro h1
    simp [verificarPuedeInscribirse, h1]
  · intro h1 h2
    simp [verificarPuedeInscribirse, h1, h2]
  · intro h1 h2 h3
    simp [verificarPuedeInscribirse, h1, h2, h3]
  · intro h1 hpos
    have h2 : verificar_cupo_disponible s tid ≠ -1 := by omega
    have h3 : ¬ verificar_cupo_disponible s tid ≤ 0 := by omega
    simp [verificarPuedeInscribirse, h1, h2, h3]

theorem verificarPuedeInscribirse_cases_witness :
    verificarPuedeInscribirse 12 1 estadoLleno =
      ({ puede := false, razon := .sinCupos, cupos_disponibles := some 0 },
       estadoLleno) :=
  (verificarPuedeInscribirse_cases 12 1 estadoLleno).2.2.1
    (by decide) (by decide) (by decide)

theorem activeCountAlumno_insert (req : EnrollRequest) (s : DBState)
    (a : Nat) :
    activeCountAlumno (insertInscripcion req s).2 a
      = activeCountAlumno s a + (if req.alumno_id = a then 1 else 0) := by
  unfold activeCountAlumno insertInscripcion
  by_cases h : req.alumno_id = a <;>
    simp [List.filter_append, h]

theorem atMostOne_insert (req : EnrollRequest) (s : DBState)
    (hno : hasInscripcionActiva s req.alumno_id = false)
    (hinv : atMostOneActivePerAlumno s) :
    atMostOneActivePerAlumno (insertInscripcion req s).2 := by
  intro i hi hact
  have hi2 : i ∈ s.inscripciones ++ [(insertInscripcion req s).1] := hi
  rcases List.mem_append.mp hi2 with hmem | hrow
  · by_cases ha : req.alumno_id = i.alumno_id
    · exfalso
      have hfalse := List.any_eq_false.mp hno i hmem
      exact hfalse (decide_eq_true ⟨ha.symm, hact⟩)
    · rw [activeCountAlumno_insert, if_neg ha]
      simpa using hinv i hmem hact
  · have hieq : i = (insertInscripcion req s).1 := by simpa using hrow
    have haid : i.alumno_id = req.alumno_id := by rw [hieq]; rfl
    rw [activeCountAlumno_insert, haid,
      activeCountAlumno_of_no_activa s req.alumno_id hno]
    simp

/-- C2: if the student already holds any `activa` enrollment, `create` fails
with the already-enrolled error and leaves the state unchanged (no row is
inserted); consequently the sequential `create` preserves the
single-workshop-per-student invariant: if no profile holds more than one
`activa` enrollment before a call, none does afterwards. -/
theorem create_single_active (req : EnrollRequest) (sf : Bool) (s : DBState) :
    (hasInscripcionActiva s req.alumno_id = true →
      create req sf s = (.error .alreadyEnrolled, s))
    ∧ (atMostOneActivePerAlumno s →
      atMostOneActivePerAlumno (create req sf s).2) := by
  constructor
  · intro h
    exact create_of_checks_error req sf s .alreadyEnrolled
      (createChecks_of_already req s h)
  · intro hinv
    cases hchecks : createChecks req s with
    | some e =>
        rw [create_of_checks_error req sf s e hchecks]
        exact hinv
    | none =>
        cases sf with
        | true =>
            have hst : create req true s = (.error .storeFailure, s) := by
              simp [create, transaction, createBody, hchecks]
            rw [hst]
            exact hinv
        | false =>
            rw [create_of_checks_none req s hchecks]
            exact atMostOne_insert req s
              (createChecks_none_no_activa req s hchecks) hinv

theorem create_single_active_witness :
    create ⟨10, 2, none⟩ false estadoInscrito
      = (.error .alreadyEnrolled, estadoInscrito)
    ∧ atMostOneActivePerAlumno (create ⟨10, 2, none⟩ false estadoInscrito).2 :=
  ⟨(create_single_active ⟨10, 2, none⟩ false estadoInscrito).1 (by decide),
   (create_single_active ⟨10, 2, none⟩ false estadoInscrito).2 (by decide)⟩

/-- C3 counterexample: in `estadoSobreinscrito` workshop 1 exists and is
active and its remaining capacity is at most 0, so per the claim an enroll
call by the unenrolled student 12 should fail with `WorkshopFull`; the code
fails with `WorkshopNotFound` instead, because a remaining capacity of
exactly `-1` collides with the missing-or-inactive sentinel of the seat
function. -/
theorem create_full_reported_as_not_found :
    findTaller estadoSobreinscrito 1 = some ⟨1, 1, true⟩
    ∧ hasInscripcionActiva estadoSobreinscrito 12 = false
    ∧ verificar_cupo_disponible estadoSobreinscrito 1 ≤ 0
    ∧ create ⟨12, 1, none⟩ false estadoSobreinscrito
        = (.error .workshopNotFound, estadoSobreinscrito)
    ∧ EnrollError.workshopNotFound ≠ EnrollError.workshopFull := by
  decide

/-- C3 amended: for an enroll call by a student with no `activa` enrollment
(and no store failure): when the seat function returns the sentinel `-1`
(workshop missing or inactive, or remaining capacity exactly `-1`) the call
fails with `WorkshopNotFound`; when it returns a non-sentinel value at most 0
the call fails with `WorkshopFull`; otherwise the call appends exactly one
new enrollment row in state `activa` carrying the requested student,
workshop and comment, and returns that created row. -/
theorem create_cases (req : EnrollRequest) (s : DBState)
    (hno : hasInscripcionActiva s req.alumno_id = false) :
    (verificar_cupo_disponible s req.taller_id = -1 →
      create req false s = (.error .workshopNotFound, s))
    ∧ (verificar_cupo_disponible s req.taller_id ≠ -1 →
        verificar_cupo_disponible s req.taller_id ≤ 0 →
        create req false s = (.error .workshopFull, s))
    ∧ (0 < verificar_cupo_disponible s req.taller_id →
        create req false s
            = (.ok (insertInscripcion req s).1, (insertInscripcion req s).2)
        ∧ (insertInscripcion req s).2.inscripciones
            = s.inscripciones ++ [(insertInscripcion req s).1]
        ∧ (insertInscripcion req s).1.estado = Estado.activa
        ∧ (insertInscripcion req s).1.alumno_id = req.alumno_id
        ∧ (insertInscripcion req s).1.taller_id = req.taller_id
        ∧ (insertInscripcion req s).1.comentarios = req.comentarios) := by
  refine ⟨?_, ?_, ?_⟩
  · intro hc
    exact create_of_checks_error req false s .workshopNotFound
      (createChecks_of_notFound req s hno hc)
  · intro h1 h2
    exact create_of_checks_error req false s .workshopFull
      (createChecks_of_full req s hno h1 h2)
  · intro hpos
    exact ⟨create_of_checks_none req s (createChecks_of_seats req s hno hpos),
      rfl, rfl, rfl, rfl, rfl⟩

theorem create_cases_witness :
    create solicitudCarrera1 false estadoCarrera
      = (.ok (insertInscripcion solicitudCarrera1 estadoCarrera).1,
         (insertInscripcion solicitudCarrera1 estadoCarrera).2)
    ∧ (insertInscripcion solicitudCarrera1 estadoCarrera).1.estado
        = Estado.activa :=
  ⟨((create_cases solicitudCarrera1 estadoCarrera (by decide)).2.2
      (by decide)).1,
   ((create_cases solicitudCarrera1 estadoCarrera (by decide)).2.2
      (by decide)).2.2.1⟩

/-- C4: every failing `create` call leaves the stored state unchanged: the
transaction wrapper rolls back on any error, including a store-level failure
of the INSERT after the checks have passed, so no failed enroll leaves a full
or extra enrollment row behind. -/
theorem create_error_rolls_back (req : EnrollRequest) (sf : Bool)
    (s : DBState) (e : EnrollError) (h : (create req sf s).1 = .error e) :
    (create req sf s).2 = s := by
  unfold create transaction at h ⊢
  cases hb : createBody req sf s with
  | error e2 => rfl
  | ok p =>
      obtain ⟨a, s2⟩ := p
      rw [hb] at h
      simp at h

theorem create_error_rolls_back_witness :
    (create solicitudCarrera1 true estadoCarrera).1
      = .error .storeFailure
    ∧ (create solicitudCarrera1 true estadoCarrera).2 = estadoCarrera :=
  ⟨by decide,
   create_error_rolls_back solicitudCarrera1 true estadoCarrera
     .storeFailure (by decide)⟩

/-- C1 (evaluation of the racy code path): starting from a capacity-1
workshop with no enrollments, the read-committed interleaving in which both
`create` transactions run their eligibility statements before either commits
lets both calls succeed, leaving 2 `activa` rows for a workshop of
`cupo_maximo` 1 — the claimed guarantee fails; the same second request issued
sequentially after the first fails with `WorkshopFull`, confirming that only
the unserialized check-then-insert window is at fault. -/
theorem createRaced_overbooks :
    createRaced solicitudCarrera1 solicitudCarrera2 estadoCarrera =
      (.ok ⟨1, 10, 1, .activa, none⟩, .ok ⟨2, 11, 1, .activa, none⟩,
       ⟨[⟨1, 1, true⟩],
        [⟨1, 10, 1, .activa, none⟩, ⟨2, 11, 1, .activa, none⟩]⟩)
    ∧ activeCount
        (createRaced solicitudCarrera1 solicitudCarrera2 estadoCarrera).2.2 1
        = 2
    ∧ (findTaller estadoCarrera 1).map Taller.cupo_maximo = some 1
    ∧ (create solicitudCarrera2 false
        (create solicitudCarrera1 false estadoCarrera).2).1
        = .error .workshopFull := by
  decide

end MakeupPro
